import Mathlib

/-!
Shallow embedding of the `ellie` navigation frontend
(`src/frontend/services/navigationService.ts`, `src/frontend/constants.ts`,
and the Navigation Coordinator logic of `src/frontend/App.tsx`).

JavaScript numbers are modelled as exact rationals (`ℚ`).  The only use the
source makes of `Math.sqrt` (inside `calculateDistance`) is to compare
distances against other distances or constant thresholds; since `Real.sqrt`
is strictly monotone on nonnegatives, every comparison
`calculateDistance p q < c` in the source is embedded as
`calculateDistanceSq p q < c ^ 2`, which is exact and decidable over `ℚ`.
-/

/-- `Point {x, y}` from `src/frontend/types.ts`: pixel coordinates. -/
structure Point where
  x : ℚ
  y : ℚ
deriving DecidableEq, Repr

/-- `GeoPoint {latitude, longitude}` from `src/frontend/types.ts`. -/
structure GeoPoint where
  latitude : ℚ
  longitude : ℚ
deriving DecidableEq, Repr

/-- `Elevator` from `src/frontend/types.ts` (`floor` may be a string such
as "N/A", so it is embedded as a string). -/
structure Elevator where
  id : String
  name : String
  location : Point
  floor : String
deriving DecidableEq, Repr

/-- The `dimensions` field of `FloorPlan`. -/
structure Dimensions where
  width : ℚ
  height : ℚ
deriving DecidableEq, Repr

/-- `FloorPlan` from `src/frontend/types.ts`. -/
structure FloorPlan where
  id : String
  name : String
  imageUrl : String
  elevators : List Elevator
  dimensions : Dimensions
deriving DecidableEq, Repr

/-- The shape of `FLOOR_PLAN_GEO_BOUNDS` in `src/frontend/constants.ts`. -/
structure GeoBounds where
  northWest : GeoPoint
  southEast : GeoPoint
deriving DecidableEq, Repr

/-- `FLOOR_PLAN_GEO_BOUNDS` from `src/frontend/constants.ts`. -/
def FLOOR_PLAN_GEO_BOUNDS : GeoBounds :=
  { northWest := { latitude := 34.0529, longitude := -118.2445 }
    southEast := { latitude := 34.0520, longitude := -118.2425 } }

/-- `MARKER_SIZE` from `src/frontend/constants.ts` (20 pixels). -/
def MARKER_SIZE : ℚ := 20

/-- `ARRIVAL_THRESHOLD_PIXELS` from `src/frontend/constants.ts` (25 pixels). -/
def ARRIVAL_THRESHOLD_PIXELS : ℚ := 25

/-- The square of `calculateDistance` from
`src/frontend/services/navigationService.ts`.  The source returns
`Math.sqrt` of this value; all of its uses are comparisons, embedded here
by comparing this square against squared bounds (`Real.sqrt` is strictly
monotone on nonnegatives). -/
def calculateDistanceSq (p1 p2 : Point) : ℚ :=
  (p1.x - p2.x) ^ 2 + (p1.y - p2.y) ^ 2

/-- One iteration of the `for` loop of `findNearestElevator`: the running
`minDistance` starts at `Infinity`, embedded as `none` (every real distance
compares below `Infinity`, so the first candidate always replaces it). -/
def nearestStep (userLocation : Point) (acc : Option Elevator × Option ℚ)
    (elevator : Elevator) : Option Elevator × Option ℚ :=
  let d := calculateDistanceSq userLocation elevator.location
  match acc.2 with
  | none => (some elevator, some d)
  | some m => if d < m then (some elevator, some d) else acc

/-- `findNearestElevator` from `src/frontend/services/navigationService.ts`:
linear scan with strict `<` against the running minimum. -/
def findNearestElevator (userLocation : Point) (elevators : List Elevator) :
    Option Elevator :=
  if elevators.isEmpty then none
  else (elevators.foldl (nearestStep userLocation) (none, none)).1

/-- `calculatePath` from `src/frontend/services/navigationService.ts`:
the straight-line two-point path. -/
def calculatePath (start stop : Point) : List Point := [start, stop]

/-- `mapRange` from `src/frontend/services/navigationService.ts`. -/
def mapRange (value inMin inMax outMin outMax : ℚ) : ℚ :=
  if inMin = inMax then (outMin + outMax) / 2
  else ((value - inMin) * (outMax - outMin)) / (inMax - inMin) + outMin

/-- `mapGeoToPixel` from `src/frontend/services/navigationService.ts`:
hard-rejects points outside the bounds rectangle, then linearly
interpolates and clamps the result to the image rectangle. -/
def mapGeoToPixel (geoPoint : GeoPoint) (bounds : GeoBounds)
    (imageDimensions : Dimensions) : Option Point :=
  let isLatOutOfBounds :=
    geoPoint.latitude > bounds.northWest.latitude ∨
    geoPoint.latitude < bounds.southEast.latitude
  let isLonOutOfBounds :=
    geoPoint.longitude < bounds.northWest.longitude ∨
    geoPoint.longitude > bounds.southEast.longitude
  if isLatOutOfBounds ∨ isLonOutOfBounds then none
  else
    let x := mapRange geoPoint.longitude bounds.northWest.longitude
      bounds.southEast.longitude 0 imageDimensions.width
    let y := mapRange geoPoint.latitude bounds.northWest.latitude
      bounds.southEast.latitude 0 imageDimensions.height
    some { x := max 0 (min x imageDimensions.width)
           y := max 0 (min y imageDimensions.height) }

/-- `mapPixelToGeo` from `src/frontend/services/navigationService.ts`.
The source returns `null` only when the interpolation produces `NaN`;
over exact rationals that guard can never fire, so the result is always
`some`. -/
def mapPixelToGeo (pixelPoint : Point) (bounds : GeoBounds)
    (imageDimensions : Dimensions) : Option GeoPoint :=
  let longitude := mapRange pixelPoint.x 0 imageDimensions.width
    bounds.northWest.longitude bounds.southEast.longitude
  let latitude := mapRange pixelPoint.y 0 imageDimensions.height
    bounds.northWest.latitude bounds.southEast.latitude
  some { latitude := latitude, longitude := longitude }

/-!
### The Navigation Coordinator (`src/frontend/App.tsx`)

The Coordinator is the `App` component's collection of `useState` cells and
the handlers that mutate them.  It is embedded as explicit state passing
over `NavState`.  The user-facing status string is embedded at template
granularity: each constructor of `StatusMsg` stands for exactly one of the
template strings written by the source (the formatted coordinates or the
elevator name that the source interpolates into the string are carried as
constructor arguments).

`fetchAiPathAndInstructions` is `async`: its synchronous prefix (up to the
`await` of the backend call) runs inside the triggering handler, and the
rest runs when the backend settles.  It is embedded accordingly as
`fetchStart` (the prefix, returning the pending `FetchCall` when the
backend request is actually issued) and `fetchSettle` (the continuation:
the `try` tail, the `catch`, and the `finally`), parameterised by an
opaque `BackendOutcome`.
-/

/-- One status template of `App.tsx`.  Each constructor corresponds to one
`setGpsStatus` template string in the source; arguments carry the data the
source interpolates. -/
inductive StatusMsg where
  /-- "Please upload a floor plan to get started." -/
  | initial : StatusMsg
  /-- "Cannot process GPS location: Floor plan not fully loaded." -/
  | planNotLoaded : StatusMsg
  /-- "GPS Updated: (lat, lon). Mapped to plan." (or the caller-supplied
  context message) -/
  | gpsUpdated (g : GeoPoint) : StatusMsg
  /-- "Initial GPS location acquired for current plan." -/
  | initialGpsAcquired : StatusMsg
  /-- a status with " (Note: GPS mapping is approximate for uploaded
  plans.)" appended -/
  | withApproxNote (base : StatusMsg) : StatusMsg
  /-- "Arrived at NAME!" -/
  | arrived (name : String) : StatusMsg
  /-- "Navigating to NAME... User location updated by GPS." -/
  | navigating (name : String) : StatusMsg
  /-- "GPS: (lat, lon). Your location appears outside the mapped area of
  this plan." -/
  | outsideMappedArea (g : GeoPoint) : StatusMsg
  /-- "Navigating to NAME: User appears outside mapped area." -/
  | navigatingOutsideMappedArea (name : String) : StatusMsg
  /-- "AI pathfinding unavailable (AI client or image missing). Showing
  straight line." -/
  | aiUnavailable : StatusMsg
  /-- "AI is planning your route to NAME..." -/
  | planning (name : String) : StatusMsg
  /-- "AI path to NAME generated. Follow instructions." -/
  | pathGenerated (name : String) : StatusMsg
  /-- "AI could not determine a multi-segment path for NAME. Showing
  straight line." -/
  | partialPath (name : String) : StatusMsg
  /-- "AI pathfinding failed for NAME. Showing straight line." -/
  | pathFailed (name : String) : StatusMsg
  /-- "Manual location set. GPS navigation stopped." -/
  | manualSet : StatusMsg
  /-- "Location set manually. No elevators found or defined for this
  plan." -/
  | noElevators : StatusMsg
  /-- "Targeting NAME. ... Set your location (click map) to start
  navigation and get AI path." -/
  | targeting (name : String) (estGps : Option GeoPoint) : StatusMsg
  /-- "GPS navigation to NAME cancelled." -/
  | cancelled (name : String) : StatusMsg
  /-- "GPS navigation stopped. Click map or an elevator to restart." -/
  | stopped : StatusMsg
deriving DecidableEq, Repr

/-- The Coordinator's state: the `useState` cells of `App` that the
navigation logic reads and writes.  `gpsWatchId` is the geolocation watch
handle (`null` embedded as `none`). -/
structure NavState where
  currentFloorPlan : Option FloorPlan
  userLocation : Option Point
  userGeoLocation : Option GeoPoint
  isGpsDerived : Bool
  isAnalyzingPlan : Bool
  nearestElevator : Option Elevator
  selectedElevator : Option Elevator
  path : Option (List Point)
  aiPathInstructions : Option (List String)
  isFetchingAiPath : Bool
  isNavigatingWithGps : Bool
  targetElevatorGps : Option GeoPoint
  gpsWatchId : Option Nat
  gpsStatus : StatusMsg
deriving DecidableEq, Repr

/-- The arguments of a backend path request that has been issued and is in
flight: `fetchAiPathAndInstructions(currentUserLocation, targetElevator,
plan)`. -/
structure FetchCall where
  start : Point
  target : Elevator
  plan : FloorPlan
deriving DecidableEq, Repr

/-- What the `await` of the backend call produces, as seen after
`JSON.parse`: either an exception (transport error, timeout, or
unparseable text — anything that lands in the `catch`), or a parsed JSON
value whose two expected fields may each be missing or mistyped (embedded
as `Option`).  An `Array.isArray` / truthiness failure on either field
makes the source `throw`, which also lands in the `catch`. -/
inductive BackendOutcome where
  | threw : BackendOutcome
  | parsed (pathCoordinates : Option (List Point))
      (instructions : Option (List String)) : BackendOutcome
deriving DecidableEq, Repr

/-- The three-line advisory fallback written by the `catch` block of
`fetchAiPathAndInstructions` (App.tsx lines 876-880). -/
def catchFallbackInstructions : List String :=
  [ "AI pathfinding system encountered an error.",
    "A straight line to the elevator is shown on the map.",
    "Please use visual cues on the floor plan to navigate." ]

/-- The generic fallback substituted when a structurally valid response
carries an empty instruction list (App.tsx lines 864-867). -/
def partialFallbackInstructions : List String :=
  [ "AI was unable to determine a detailed path.",
    "A straight line to the elevator is shown on the map." ]

/-- The single advisory instruction of the backend-unavailable branch
(App.tsx line 762). -/
def unavailableInstructions : List String :=
  [ "AI pathfinding is currently unavailable." ]

/-- The endpoint substitution of the success branch (App.tsx lines
854-856): `validatedPath[0] = currentUserLocation;
validatedPath[validatedPath.length - 1] = targetElevator.location`. -/
def overwriteEndpoints (coords : List Point) (start stop : Point) :
    List Point :=
  (coords.set 0 start).set (coords.length - 1) stop

/-- `stopGpsNavigation` (App.tsx lines 715-730): clears the live flag and
the watch, then sets the status from the optional message or from the
current selection. -/
def stopGpsNavigation (s : NavState) (message : Option StatusMsg) :
    NavState :=
  let s1 := { s with isNavigatingWithGps := false, gpsWatchId := none }
  match message with
  | some m => { s1 with gpsStatus := m }
  | none =>
    match s.selectedElevator with
    | some e => { s1 with gpsStatus := .cancelled e.name }
    | none =>
      if s.currentFloorPlan.isSome then { s1 with gpsStatus := .stopped }
      else { s1 with gpsStatus := .initial }

/-- The synchronous prefix of `fetchAiPathAndInstructions` (App.tsx lines
754-769): the unavailable guard, or — when a request is issued — setting
the pending flag, clearing instructions and path, and announcing
planning.  Returns the pending `FetchCall` when the backend request was
issued. -/
def fetchStart (aiAvailable : Bool) (s : NavState) (currentUserLocation : Point)
    (targetElevator : Elevator) (plan : FloorPlan) :
    NavState × Option FetchCall :=
  if aiAvailable = false ∨ plan.imageUrl = "" then
    ({ s with
        gpsStatus := .aiUnavailable
        path := some (calculatePath currentUserLocation targetElevator.location)
        aiPathInstructions := some unavailableInstructions }, none)
  else
    ({ s with
        isFetchingAiPath := true
        aiPathInstructions := none
        path := none
        gpsStatus := .planning targetElevator.name },
      some { start := currentUserLocation, target := targetElevator, plan := plan })

/-- The continuation of `fetchAiPathAndInstructions` after the backend
settles (App.tsx lines 850-883): the structural check and endpoint
substitution, the partial-failure branch, the `catch`, and the `finally`
that clears the pending flag. -/
def fetchSettle (c : FetchCall) (o : BackendOutcome) (s : NavState) :
    NavState :=
  let s2 :=
    match o with
    | .parsed (some coords) (some instrs) =>
      if 2 ≤ coords.length ∧ 0 < instrs.length then
        { s with
            path := some (overwriteEndpoints coords c.start c.target.location)
            aiPathInstructions := some instrs
            gpsStatus := .pathGenerated c.target.name }
      else
        { s with
            gpsStatus := .partialPath c.target.name
            path := some (calculatePath c.start c.target.location)
            aiPathInstructions :=
              some (if 0 < instrs.length then instrs else partialFallbackInstructions) }
    | _ =>
      { s with
          gpsStatus := .pathFailed c.target.name
          path := some (calculatePath c.start c.target.location)
          aiPathInstructions := some catchFallbackInstructions }
  { s2 with isFetchingAiPath := false }

/-- A whole `fetchAiPathAndInstructions` invocation run to completion:
the synchronous prefix followed, when a request was issued, by the settled
continuation. -/
def fetchSettled (aiAvailable : Bool) (s : NavState) (currentUserLocation : Point)
    (targetElevator : Elevator) (plan : FloorPlan) (o : BackendOutcome) :
    NavState :=
  match fetchStart aiAvailable s currentUserLocation targetElevator plan with
  | (s1, none) => s1
  | (s1, some c) => fetchSettle c o s1

/-- The displacement guard of `processGpsLocation` (App.tsx line 916):
`!oldUserLocation || calculateDistance(pixelLocation, oldUserLocation) >
MARKER_SIZE * 2`, with the distance comparison squared. -/
def movedFar (pixelLocation : Point) (oldUserLocation : Option Point) : Prop :=
  match oldUserLocation with
  | none => True
  | some old => (MARKER_SIZE * 2) ^ 2 < calculateDistanceSq pixelLocation old

instance (p : Point) (o : Option Point) : Decidable (movedFar p o) := by
  unfold movedFar
  cases o <;> infer_instance

/-- `processGpsLocation` (App.tsx lines 887-940), synchronous part.  The
second component is the backend request issued by this fix, if any: the
request settles later via `fetchSettle`. -/
def processGpsLocationStep (aiAvailable : Bool) (s : NavState) (g : GeoPoint)
    (contextMessage : Option StatusMsg) : NavState × Option FetchCall :=
  match s.currentFloorPlan with
  | none => ({ s with gpsStatus := .planNotLoaded }, none)
  | some plan =>
    if plan.dimensions.width = 0 then
      ({ s with gpsStatus := .planNotLoaded }, none)
    else
      let s0 := { s with userGeoLocation := some g }
      match mapGeoToPixel g FLOOR_PLAN_GEO_BOUNDS plan.dimensions with
      | some pixelLocation =>
        let oldUserLocation := s.userLocation
        let s1 := { s0 with userLocation := some pixelLocation, isGpsDerived := true }
        let status0 :=
          StatusMsg.withApproxNote (contextMessage.getD (.gpsUpdated g))
        match s1.selectedElevator, s1.isNavigatingWithGps with
        | some sel, true =>
          if calculateDistanceSq pixelLocation sel.location <
              ARRIVAL_THRESHOLD_PIXELS ^ 2 then
            let status := StatusMsg.arrived sel.name
            let s2 := stopGpsNavigation s1 (some status)
            let s3 := { s2 with path := none }
            ({ s3 with gpsStatus := status }, none)
          else
            let status := StatusMsg.navigating sel.name
            if s1.aiPathInstructions.isSome ∧ 0 < (s1.path.getD []).length ∧
                s1.path.isSome then
              ({ s1 with
                  path := some ((s1.path.getD []).set 0 pixelLocation)
                  gpsStatus := status }, none)
            else if s1.aiPathInstructions = none ∧ s1.isFetchingAiPath = false ∧
                movedFar pixelLocation oldUserLocation then
              let (s2, call) := fetchStart aiAvailable s1 pixelLocation sel plan
              ({ s2 with gpsStatus := status }, call)
            else if s1.isFetchingAiPath = false then
              ({ s1 with
                  path := some (calculatePath pixelLocation sel.location)
                  gpsStatus := status }, none)
            else
              ({ s1 with gpsStatus := status }, none)
        | some sel, false =>
          if s1.isFetchingAiPath = false then
            let (s2, call) := fetchStart aiAvailable s1 pixelLocation sel plan
            ({ s2 with gpsStatus := status0 }, call)
          else
            ({ s1 with gpsStatus := status0 }, none)
        | none, _ =>
          if s1.isFetchingAiPath = false then
            let nearest := findNearestElevator pixelLocation plan.elevators
            let s2 := { s1 with nearestElevator := nearest }
            let s3 :=
              match nearest with
              | some ne =>
                { s2 with path := some (calculatePath pixelLocation ne.location) }
              | none => s2
            ({ s3 with gpsStatus := status0 }, none)
          else
            ({ s1 with gpsStatus := status0 }, none)
      | none =>
        let s1 := { s0 with isGpsDerived := false }
        match s1.isNavigatingWithGps, s1.selectedElevator with
        | true, some sel =>
          ({ s1 with gpsStatus := .navigatingOutsideMappedArea sel.name }, none)
        | _, _ =>
          ({ s1 with gpsStatus := .outsideMappedArea g }, none)

/-- `handleManualMapClick` (App.tsx lines 996-1016), synchronous part. -/
def handleManualMapClickStep (aiAvailable : Bool) (s : NavState) (point : Point) :
    NavState × Option FetchCall :=
  match s.currentFloorPlan with
  | none => (s, none)
  | some plan =>
    if s.isAnalyzingPlan = true ∨ s.isFetchingAiPath = true then (s, none)
    else
      let s1 := stopGpsNavigation s (some .manualSet)
      let s2 := { s1 with
        userLocation := some point
        isGpsDerived := false
        aiPathInstructions := none }
      match findNearestElevator point plan.elevators with
      | some nearest =>
        let s3 := { s2 with selectedElevator := some nearest }
        let (s4, call) := fetchStart aiAvailable s3 point nearest plan
        let s5 := { s4 with
          targetElevatorGps :=
            mapPixelToGeo nearest.location FLOOR_PLAN_GEO_BOUNDS plan.dimensions
          isNavigatingWithGps := true }
        (s5, call)
      | none =>
        ({ s2 with
            selectedElevator := none
            path := none
            targetElevatorGps := none
            gpsStatus := .noElevators }, none)

/-- `handleElevatorClick` (App.tsx lines 1018-1043), synchronous part. -/
def handleElevatorClickStep (aiAvailable : Bool) (s : NavState) (elevatorId : String) :
    NavState × Option FetchCall :=
  match s.currentFloorPlan with
  | none => (s, none)
  | some plan =>
    if s.isAnalyzingPlan = true ∨ plan.elevators.isEmpty = true ∨
        s.isFetchingAiPath = true then (s, none)
    else
      match plan.elevators.find? (fun e => e.id == elevatorId) with
      | none => (s, none)
      | some elevator =>
        let s1 := stopGpsNavigation s none
        let s2 := { s1 with
          selectedElevator := some elevator
          aiPathInstructions := none }
        let elevGps :=
          mapPixelToGeo elevator.location FLOOR_PLAN_GEO_BOUNDS plan.dimensions
        let s3 := { s2 with targetElevatorGps := elevGps }
        match s3.userLocation with
        | some u =>
          let (s4, call) := fetchStart aiAvailable s3 u elevator plan
          ({ s4 with isNavigatingWithGps := true }, call)
        | none =>
          ({ s3 with
              path := none
              gpsStatus := .targeting elevator.name elevGps }, none)

/-- Settle the pending backend request of a handler step, if it issued
one: the state once the whole interaction, asynchronous completion
included, is finished. -/
def settleStep (o : BackendOutcome) : NavState × Option FetchCall → NavState
  | (s, none) => s
  | (s, some c) => fetchSettle c o s

/-!
### Sample fixtures used by witnesses
-/

/-- A sample elevator (the `E1` of the spec scenarios, at pixel (700, 500)). -/
def sampleElevator : Elevator :=
  { id := "e1", name := "E1", location := { x := 700, y := 500 }, floor := "1" }

/-- A sample loaded floor plan with one elevator and an 800×600 image. -/
def samplePlan : FloorPlan :=
  { id := "plan1", name := "Plan 1", imageUrl := "data-url"
    elevators := [sampleElevator]
    dimensions := { width := 800, height := 600 } }

/-- A freshly loaded state: plan present, no location, nothing pending. -/
def baseState : NavState :=
  { currentFloorPlan := some samplePlan
    userLocation := none
    userGeoLocation := none
    isGpsDerived := false
    isAnalyzingPlan := false
    nearestElevator := none
    selectedElevator := none
    path := none
    aiPathInstructions := none
    isFetchingAiPath := false
    isNavigatingWithGps := false
    targetElevatorGps := none
    gpsWatchId := none
    gpsStatus := .initial }

/-- `baseState` with a path request pending. -/
def pendingState : NavState :=
  { baseState with
      isFetchingAiPath := true
      selectedElevator := some sampleElevator
      userLocation := some { x := 100, y := 100 }
      isNavigatingWithGps := true }

/-- A sample in-flight request from (1, 2) to `sampleElevator`. -/
def sampleCall : FetchCall :=
  { start := { x := 1, y := 2 }, target := sampleElevator, plan := samplePlan }

/-!
### Claim theorems
-/

/-- **C9** (counterexample): with the calibrated bounds
`NW(34.0529, -118.2445)`–`SE(34.0520, -118.2425)` and an 800×600 image,
`mapGeoToPixel` does *not* map the fix `(34.0524, -118.2435)` to the pixel
`(400, 300)` the claim states. -/
theorem c9_midpoint_counterexample :
    mapGeoToPixel { latitude := 34.0524, longitude := -118.2435 }
      FLOOR_PLAN_GEO_BOUNDS { width := 800, height := 600 } ≠
      some { x := 400, y := 300 } := by
  norm_num [mapGeoToPixel, mapRange, FLOOR_PLAN_GEO_BOUNDS]

/-- **C9** (amended): that fix maps to the pixel `(400, 1000/3)`: the
longitude −118.2435 is the exact midpoint of the longitude range, so
x = 400, but the latitude 34.0524 is not the midpoint of
[34.0520, 34.0529] (the midpoint is 34.05245), so y = 600·(5/9) = 1000/3
≈ 333.33 rather than 300. -/
theorem c9_fix_maps_to_400_1000over3 :
    mapGeoToPixel { latitude := 34.0524, longitude := -118.2435 }
      FLOOR_PLAN_GEO_BOUNDS { width := 800, height := 600 } =
      some { x := 400, y := 1000 / 3 } := by
  norm_num [mapGeoToPixel, mapRange, FLOOR_PLAN_GEO_BOUNDS]

/-- **C3**: whenever the backend call throws, times out, or returns an
unparseable response (all of which land in the `catch` block), the settled
request stores exactly the two-point straight line from the request's
start to the target elevator's location, and the fixed three-line advisory
fallback instruction list, which is non-empty. -/
theorem c3_throw_gives_straight_line_and_three_line_fallback
    (c : FetchCall) (s : NavState) :
    (fetchSettle c .threw s).path = some [c.start, c.target.location] ∧
    (fetchSettle c .threw s).aiPathInstructions =
      some catchFallbackInstructions ∧
    catchFallbackInstructions.length = 3 ∧
    catchFallbackInstructions ≠ [] := by
  refine ⟨rfl, rfl, rfl, ?_⟩
  simp [catchFallbackInstructions]

/-- **C4**: a structurally valid backend response whose coordinate
sequence has fewer than 2 points (endpoint substitution preserves length,
so raw and corrected lengths agree) or whose instruction list is empty is
treated as a partial failure: the straight-line path is stored, a
non-empty returned instruction list is kept, and an empty one is replaced
by the generic fallback instructions. -/
theorem c4_partial_failure_straight_line_keeps_instructions
    (c : FetchCall) (s : NavState) (coords : List Point)
    (instrs : List String) (h : coords.length < 2 ∨ instrs = []) :
    (fetchSettle c (.parsed (some coords) (some instrs)) s).path =
      some [c.start, c.target.location] ∧
    (fetchSettle c (.parsed (some coords) (some instrs)) s).aiPathInstructions =
      some (if 0 < instrs.length then instrs else partialFallbackInstructions) ∧
    (instrs ≠ [] →
      (fetchSettle c (.parsed (some coords) (some instrs)) s).aiPathInstructions =
        some instrs) ∧
    (instrs = [] →
      (fetchSettle c (.parsed (some coords) (some instrs)) s).aiPathInstructions =
        some partialFallbackInstructions) ∧
    (fetchSettle c (.parsed (some coords) (some instrs)) s).gpsStatus =
      .partialPath c.target.name := by
  have hcond : ¬(2 ≤ coords.length ∧ 0 < instrs.length) := by
    rintro ⟨h2, h3⟩
    rcases h with h | h
    · omega
    · subst h; simp at h3
  refine ⟨?_, ?_, ?_, ?_, ?_⟩
  · simp [fetchSettle, hcond, calculatePath]
  · simp [fetchSettle, hcond]
  · intro hne
    have hp : 0 < instrs.length := List.length_pos.mpr hne
    simp only [fetchSettle, hcond, hp, if_pos]
    split <;> rfl
  · intro he
    subst he
    simp [fetchSettle, hcond]
  · simp [fetchSettle, hcond]

/-- Witness for C4 at a concrete partial response: one coordinate and one
instruction line; the straight line is used and the instruction kept. -/
theorem c4_witness :
    (fetchSettle sampleCall
        (.parsed (some [{ x := 5, y := 5 }]) (some ["step one"])) baseState).path =
      some [sampleCall.start, sampleCall.target.location] ∧
    (fetchSettle sampleCall
        (.parsed (some [{ x := 5, y := 5 }]) (some ["step one"])) baseState).aiPathInstructions =
      some ["step one"] := by
  have h := c4_partial_failure_straight_line_keeps_instructions sampleCall baseState
    [{ x := 5, y := 5 }] ["step one"] (Or.inl (by decide))
  exact ⟨h.1, h.2.2.1 (by decide)⟩

/-- **C10**: while a path request is pending, a manual map tap and an
elevator-marker tap are dropped whole: the handlers return the state
unchanged and issue no request. -/
theorem c10_pending_drops_map_and_elevator_taps
    (aiAvailable : Bool) (s : NavState) (point : Point) (elevatorId : String)
    (h : s.isFetchingAiPath = true) :
    handleManualMapClickStep aiAvailable s point = (s, none) ∧
    handleElevatorClickStep aiAvailable s elevatorId = (s, none) := by
  constructor
  · unfold handleManualMapClickStep
    cases s.currentFloorPlan with
    | none => rfl
    | some plan => simp [h]
  · unfold handleElevatorClickStep
    cases s.currentFloorPlan with
    | none => rfl
    | some plan => simp [h]

/-- Witness for C10 on a concrete pending state. -/
theorem c10_witness :
    handleManualMapClickStep true pendingState { x := 1, y := 1 } =
      (pendingState, none) ∧
    handleElevatorClickStep true pendingState "e1" = (pendingState, none) :=
  c10_pending_drops_map_and_elevator_taps true pendingState { x := 1, y := 1 }
    "e1" rfl

/-- **C2**: at most one path request is in flight at a time.  While the
pending flag is set, none of the three triggers (map tap, elevator tap,
location fix) issues a request; the settled continuation of every issued
request ends with the pending flag cleared (the `finally`); and the
synchronous prefix raises the flag exactly when it issues a request (the
unavailable branch leaves the flag untouched), so the flag is never left
set after completion. -/
theorem c2_single_flight_and_pending_cleared
    (aiAvailable : Bool) (s : NavState) (point : Point) (elevatorId : String)
    (g : GeoPoint) (ctx : Option StatusMsg) (c : FetchCall) (o : BackendOutcome)
    (u : Point) (e : Elevator) (plan : FloorPlan) :
    (s.isFetchingAiPath = true →
      (handleManualMapClickStep aiAvailable s point).2 = none ∧
      (handleElevatorClickStep aiAvailable s elevatorId).2 = none ∧
      (processGpsLocationStep aiAvailable s g ctx).2 = none) ∧
    (fetchSettle c o s).isFetchingAiPath = false ∧
    ((fetchStart aiAvailable s u e plan).2.isSome →
      (fetchStart aiAvailable s u e plan).1.isFetchingAiPath = true) ∧
    ((fetchStart aiAvailable s u e plan).2 = none →
      (fetchStart aiAvailable s u e plan).1.isFetchingAiPath =
        s.isFetchingAiPath) := by
  refine ⟨?_, ?_, ?_, ?_⟩
  · intro hp
    refine ⟨?_, ?_, ?_⟩
    · unfold handleManualMapClickStep
      cases s.currentFloorPlan with
      | none => rfl
      | some plan2 => simp [hp]
    · unfold handleElevatorClickStep
      cases s.currentFloorPlan with
      | none => rfl
      | some plan2 => simp [hp]
    · unfold processGpsLocationStep
      cases s.currentFloorPlan with
      | none => rfl
      | some plan2 =>
        dsimp only
        split
        · rfl
        · cases mapGeoToPixel g FLOOR_PLAN_GEO_BOUNDS plan2.dimensions with
          | none =>
            dsimp only
            split <;> rfl
          | some px =>
            dsimp only
            cases hsel : s.selectedElevator with
            | none => simp [hp]
            | some sel =>
              cases hnav : s.isNavigatingWithGps with
              | false => simp [hp]
              | true =>
                dsimp only
                split
                · rfl
                · split
                  · rfl
                  · split
                    · simp_all
                    · split <;> rfl
  · cases o with
    | threw => rfl
    | parsed pc pi => cases pc <;> cases pi <;> rfl
  · unfold fetchStart
    by_cases hg : aiAvailable = false ∨ plan.imageUrl = ""
    · simp [if_pos hg]
    · simp [if_neg hg]
  · unfold fetchStart
    by_cases hg : aiAvailable = false ∨ plan.imageUrl = ""
    · simp [if_pos hg]
    · simp [if_neg hg]

/-- Witness for C2: no trigger issues a request from a concrete pending
state, and a settled failing request leaves the flag cleared. -/
theorem c2_witness :
    (handleManualMapClickStep true pendingState { x := 1, y := 1 }).2 = none ∧
    (handleElevatorClickStep true pendingState "e1").2 = none ∧
    (processGpsLocationStep true pendingState
      { latitude := 34.0524, longitude := -118.2435 } none).2 = none ∧
    (fetchSettle sampleCall .threw pendingState).isFetchingAiPath = false := by
  have h := c2_single_flight_and_pending_cleared true pendingState
    { x := 1, y := 1 } "e1" { latitude := 34.0524, longitude := -118.2435 }
    none sampleCall .threw { x := 1, y := 2 } sampleElevator samplePlan
  exact ⟨(h.1 rfl).1, (h.1 rfl).2.1, (h.1 rfl).2.2, h.2.1⟩

/-!
### Helper lemmas for the path-endpoint invariant (C1)
-/

lemma overwriteEndpoints_head (coords : List Point) (a b : Point)
    (h : 2 ≤ coords.length) : (overwriteEndpoints coords a b).head? = some a := by
  unfold overwriteEndpoints
  rw [List.head?_eq_getElem?]
  rw [List.getElem?_set_ne (by omega)]
  exact List.getElem?_set_self (by omega)

lemma overwriteEndpoints_getLast (coords : List Point) (a b : Point)
    (h : 1 ≤ coords.length) :
    (overwriteEndpoints coords a b).getLast? = some b := by
  unfold overwriteEndpoints
  rw [List.getLast?_eq_getElem?]
  simp only [List.length_set]
  exact List.getElem?_set_self (by simp only [List.length_set]; omega)

/-- `fetchSettle` never writes `userLocation` or `selectedElevator`. -/
lemma fetchSettle_preserves (c : FetchCall) (o : BackendOutcome) (s : NavState) :
    (fetchSettle c o s).userLocation = s.userLocation ∧
    (fetchSettle c o s).selectedElevator = s.selectedElevator := by
  cases o with
  | threw => exact ⟨rfl, rfl⟩
  | parsed pc pi =>
    cases pc <;> cases pi <;> try exact ⟨rfl, rfl⟩
    unfold fetchSettle
    dsimp only
    constructor <;> (split <;> rfl)

/-- Every settled request stores a path whose first point is the request's
start and whose last point is the target elevator's location. -/
lemma fetchSettle_path_endpoints (c : FetchCall) (o : BackendOutcome)
    (s : NavState) (p : List Point)
    (hp : (fetchSettle c o s).path = some p) :
    p.head? = some c.start ∧ p.getLast? = some c.target.location := by
  cases o with
  | threw =>
    simp only [fetchSettle, calculatePath] at hp
    obtain rfl := Option.some.inj hp
    exact ⟨rfl, rfl⟩
  | parsed pc pi =>
    cases pc with
    | none =>
      simp only [fetchSettle, calculatePath] at hp
      obtain rfl := Option.some.inj hp
      exact ⟨rfl, rfl⟩
    | some coords =>
      cases pi with
      | none =>
        simp only [fetchSettle, calculatePath] at hp
        obtain rfl := Option.some.inj hp
        exact ⟨rfl, rfl⟩
      | some instrs =>
        by_cases hcond : 2 ≤ coords.length ∧ 0 < instrs.length
        · simp only [fetchSettle, if_pos hcond] at hp
          obtain rfl := Option.some.inj hp
          exact ⟨overwriteEndpoints_head coords _ _ hcond.1,
            overwriteEndpoints_getLast coords _ _ (by omega)⟩
        · simp only [fetchSettle, if_neg hcond, calculatePath] at hp
          obtain rfl := Option.some.inj hp
          exact ⟨rfl, rfl⟩

/-- When a manual map tap issues a request, the synchronous state already
stores the request's start as the user location and its target as the
selected elevator. -/
lemma handleManualMapClickStep_issued (aiAvailable : Bool) (s : NavState)
    (point : Point) (s' : NavState) (c : FetchCall)
    (h : handleManualMapClickStep aiAvailable s point = (s', some c)) :
    s'.userLocation = some c.start ∧ s'.selectedElevator = some c.target := by
  unfold handleManualMapClickStep fetchStart at h
  repeat' first
    | (split at h)
    | (dsimp only at h)
  all_goals
    first
      | (injection h with h1 h2; exact Option.noConfusion h2)
      | (injection h with h1 h2; injection h2 with h3; subst h1; subst h3;
          refine ⟨?_, ?_⟩ <;> first | rfl | assumption)

/-- When an elevator tap issues a request, the synchronous state stores
the request's start as the user location and its target as the selected
elevator. -/
lemma handleElevatorClickStep_issued (aiAvailable : Bool) (s : NavState)
    (elevatorId : String) (s' : NavState) (c : FetchCall)
    (h : handleElevatorClickStep aiAvailable s elevatorId = (s', some c)) :
    s'.userLocation = some c.start ∧ s'.selectedElevator = some c.target := by
  unfold handleElevatorClickStep fetchStart at h
  repeat' first
    | (split at h)
    | (dsimp only at h)
  all_goals
    first
      | (injection h with h1 h2; exact Option.noConfusion h2)
      | (injection h with h1 h2; injection h2 with h3; subst h1; subst h3;
          refine ⟨?_, ?_⟩ <;> first | rfl | assumption)

/-- When a location fix issues a request, the synchronous state stores the
request's start (the projected pixel) as the user location and its target
as the selected elevator. -/
lemma processGpsLocationStep_issued (aiAvailable : Bool) (s : NavState)
    (g : GeoPoint) (ctx : Option StatusMsg) (s' : NavState) (c : FetchCall)
    (h : processGpsLocationStep aiAvailable s g ctx = (s', some c)) :
    s'.userLocation = some c.start ∧ s'.selectedElevator = some c.target := by
  unfold processGpsLocationStep fetchStart at h
  repeat' first
    | (split at h)
    | (dsimp only at h)
  all_goals
    first
      | (injection h with h1 h2; exact Option.noConfusion h2)
      | (injection h with h1 h2; injection h2 with h3; subst h1; subst h3;
          refine ⟨?_, ?_⟩ <;> first | rfl | assumption)

/-- **C1**: after a path request settles — successfully or via any
fallback — the stored path begins at the request's start (the user
location at the moment of the trigger) and ends at the target elevator's
location, regardless of the endpoints the backend returned; moreover each
of the three triggers that can issue a request stores exactly that start
as `userLocation` and that target as `selectedElevator`, and `fetchSettle`
never modifies either, so on the settled state the path runs from the
current user location to the target elevator's location. -/
theorem c1_settled_path_runs_user_to_target
    (aiAvailable : Bool) (s : NavState) (u : Point) (e : Elevator)
    (plan : FloorPlan) (o : BackendOutcome) (point : Point)
    (elevatorId : String) (g : GeoPoint) (ctx : Option StatusMsg) :
    (∀ p, (fetchSettled aiAvailable s u e plan o).path = some p →
      p.head? = some u ∧ p.getLast? = some e.location) ∧
    (∀ s' c, handleManualMapClickStep aiAvailable s point = (s', some c) →
      (fetchSettle c o s').userLocation = some c.start ∧
      (fetchSettle c o s').selectedElevator = some c.target ∧
      ∀ p, (fetchSettle c o s').path = some p →
        p.head? = some c.start ∧ p.getLast? = some c.target.location) ∧
    (∀ s' c, handleElevatorClickStep aiAvailable s elevatorId = (s', some c) →
      (fetchSettle c o s').userLocation = some c.start ∧
      (fetchSettle c o s').selectedElevator = some c.target ∧
      ∀ p, (fetchSettle c o s').path = some p →
        p.head? = some c.start ∧ p.getLast? = some c.target.location) ∧
    (∀ s' c, processGpsLocationStep aiAvailable s g ctx = (s', some c) →
      (fetchSettle c o s').userLocation = some c.start ∧
      (fetchSettle c o s').selectedElevator = some c.target ∧
      ∀ p, (fetchSettle c o s').path = some p →
        p.head? = some c.start ∧ p.getLast? = some c.target.location) := by
  have hhandler : ∀ (s' : NavState) (c : FetchCall),
      s'.userLocation = some c.start → s'.selectedElevator = some c.target →
      (fetchSettle c o s').userLocation = some c.start ∧
      (fetchSettle c o s').selectedElevator = some c.target ∧
      ∀ p, (fetchSettle c o s').path = some p →
        p.head? = some c.start ∧ p.getLast? = some c.target.location := by
    intro s' c h1 h2
    refine ⟨?_, ?_, ?_⟩
    · rw [(fetchSettle_preserves c o s').1]; exact h1
    · rw [(fetchSettle_preserves c o s').2]; exact h2
    · intro p hp; exact fetchSettle_path_endpoints c o s' p hp
  refine ⟨?_, ?_, ?_, ?_⟩
  · intro p hp
    unfold fetchSettled fetchStart at hp
    by_cases hg : aiAvailable = false ∨ plan.imageUrl = ""
    · rw [if_pos hg] at hp
      dsimp only at hp
      obtain rfl := Option.some.inj hp
      exact ⟨rfl, rfl⟩
    · rw [if_neg hg] at hp
      dsimp only at hp
      exact fetchSettle_path_endpoints _ o _ p hp
  · intro s' c h
    have hi := handleManualMapClickStep_issued aiAvailable s point s' c h
    exact hhandler s' c hi.1 hi.2
  · intro s' c h
    have hi := handleElevatorClickStep_issued aiAvailable s elevatorId s' c h
    exact hhandler s' c hi.1 hi.2
  · intro s' c h
    have hi := processGpsLocationStep_issued aiAvailable s g ctx s' c h
    exact hhandler s' c hi.1 hi.2

/-- Witness for C1: a concrete map tap at (100, 100) on the sample plan
issues a request to `E1`; on the settled state the stored path runs from
the tap to the elevator's location. -/
theorem c1_witness :
    (handleManualMapClickStep true baseState { x := 100, y := 100 }).2 =
      some { start := { x := 100, y := 100 }, target := sampleElevator,
             plan := samplePlan } ∧
    (fetchSettle
        { start := { x := 100, y := 100 }, target := sampleElevator,
          plan := samplePlan } .threw
        (handleManualMapClickStep true baseState
          { x := 100, y := 100 }).1).userLocation =
      some { x := 100, y := 100 } ∧
    (fetchSettle
        { start := { x := 100, y := 100 }, target := sampleElevator,
          plan := samplePlan } .threw
        (handleManualMapClickStep true baseState
          { x := 100, y := 100 }).1).selectedElevator = some sampleElevator ∧
    ∀ p, (fetchSettle
        { start := { x := 100, y := 100 }, target := sampleElevator,
          plan := samplePlan } .threw
        (handleManualMapClickStep true baseState
          { x := 100, y := 100 }).1).path = some p →
      p.head? = some { x := 100, y := 100 } ∧
      p.getLast? = some sampleElevator.location := by
  have hsnd : (handleManualMapClickStep true baseState
      { x := 100, y := 100 }).2 =
      some { start := { x := 100, y := 100 }, target := sampleElevator,
             plan := samplePlan } := rfl
  have hstep : handleManualMapClickStep true baseState { x := 100, y := 100 } =
      ((handleManualMapClickStep true baseState { x := 100, y := 100 }).1,
        some { start := { x := 100, y := 100 }, target := sampleElevator,
               plan := samplePlan }) := by
    rw [← hsnd]
  have h := (c1_settled_path_runs_user_to_target true baseState
    { x := 100, y := 100 } sampleElevator samplePlan .threw
    { x := 100, y := 100 } "e1" { latitude := 34.0524, longitude := -118.2435 }
    none).2.1 _ _ hstep
  exact ⟨hsnd, h.1, h.2.1, h.2.2⟩

/-- **C8**: a location fix whose geographic point fails projection (lies
outside the calibrated bounds) leaves the prior pixel user location, the
existing path, and the existing target elevator unchanged, sets one of the
two "outside mapped area" status messages, and issues no request. -/
theorem c8_projection_failure_preserves_state
    (aiAvailable : Bool) (s : NavState) (g : GeoPoint) (ctx : Option StatusMsg)
    (plan : FloorPlan)
    (hplan : s.currentFloorPlan = some plan)
    (hw : ¬plan.dimensions.width = 0)
    (hproj : mapGeoToPixel g FLOOR_PLAN_GEO_BOUNDS plan.dimensions = none) :
    (processGpsLocationStep aiAvailable s g ctx).1.userLocation =
      s.userLocation ∧
    (processGpsLocationStep aiAvailable s g ctx).1.path = s.path ∧
    (processGpsLocationStep aiAvailable s g ctx).1.selectedElevator =
      s.selectedElevator ∧
    ((processGpsLocationStep aiAvailable s g ctx).1.gpsStatus =
        .outsideMappedArea g ∨
      ∃ sel, s.selectedElevator = some sel ∧
        (processGpsLocationStep aiAvailable s g ctx).1.gpsStatus =
          .navigatingOutsideMappedArea sel.name) ∧
    (processGpsLocationStep aiAvailable s g ctx).2 = none := by
  unfold processGpsLocationStep
  rw [hplan]
  dsimp only
  rw [if_neg hw, hproj]
  dsimp only
  cases hnav : s.isNavigatingWithGps with
  | false =>
    cases hsel : s.selectedElevator with
    | none => exact ⟨rfl, rfl, rfl, Or.inl rfl, rfl⟩
    | some sel => exact ⟨rfl, rfl, rfl, Or.inl rfl, rfl⟩
  | true =>
    cases hsel : s.selectedElevator with
    | none => exact ⟨rfl, rfl, rfl, Or.inl rfl, rfl⟩
    | some sel => exact ⟨rfl, rfl, rfl, Or.inr ⟨sel, rfl, rfl⟩, rfl⟩

/-- Witness for C8: a fix north of the calibrated bounds is rejected and
everything but the status is preserved. -/
theorem c8_witness :
    (processGpsLocationStep true pendingState
        { latitude := 35, longitude := -118.2435 } none).1.userLocation =
      pendingState.userLocation ∧
    (processGpsLocationStep true pendingState
        { latitude := 35, longitude := -118.2435 } none).1.path =
      pendingState.path ∧
    (processGpsLocationStep true pendingState
        { latitude := 35, longitude := -118.2435 } none).1.selectedElevator =
      pendingState.selectedElevator ∧
    (processGpsLocationStep true pendingState
        { latitude := 35, longitude := -118.2435 } none).2 = none := by
  have h := c8_projection_failure_preserves_state true pendingState
    { latitude := 35, longitude := -118.2435 } none samplePlan rfl
    (by norm_num [samplePlan])
    (by norm_num [mapGeoToPixel, mapRange, FLOOR_PLAN_GEO_BOUNDS, samplePlan])
  exact ⟨h.1, h.2.1, h.2.2.1, h.2.2.2.2⟩

/-- **C7**: while live-navigating to a selected target, a fix whose mapped
pixel lies at distance strictly below the 25-pixel arrival threshold
(squared comparison: `distSq < 25²`) triggers arrival — the live flag is
cleared, the watch handle is cleared, the path is cleared, and the arrival
status is reported, with no request issued — while a fix at distance at or
above the threshold leaves navigation running, keeps the watch handle, and
reports a navigating status instead. -/
theorem c7_arrival_threshold
    (aiAvailable : Bool) (s : NavState) (g : GeoPoint) (ctx : Option StatusMsg)
    (plan : FloorPlan) (e : Elevator) (px : Point)
    (hplan : s.currentFloorPlan = some plan)
    (hw : ¬plan.dimensions.width = 0)
    (hnav : s.isNavigatingWithGps = true)
    (hsel : s.selectedElevator = some e)
    (hpx : mapGeoToPixel g FLOOR_PLAN_GEO_BOUNDS plan.dimensions = some px) :
    (calculateDistanceSq px e.location < ARRIVAL_THRESHOLD_PIXELS ^ 2 →
      (processGpsLocationStep aiAvailable s g ctx).1.isNavigatingWithGps =
        false ∧
      (processGpsLocationStep aiAvailable s g ctx).1.gpsWatchId = none ∧
      (processGpsLocationStep aiAvailable s g ctx).1.path = none ∧
      (processGpsLocationStep aiAvailable s g ctx).1.gpsStatus =
        .arrived e.name ∧
      (processGpsLocationStep aiAvailable s g ctx).2 = none) ∧
    (ARRIVAL_THRESHOLD_PIXELS ^ 2 ≤ calculateDistanceSq px e.location →
      (processGpsLocationStep aiAvailable s g ctx).1.isNavigatingWithGps =
        true ∧
      (processGpsLocationStep aiAvailable s g ctx).1.gpsWatchId =
        s.gpsWatchId ∧
      (processGpsLocationStep aiAvailable s g ctx).1.gpsStatus =
        .navigating e.name) := by
  unfold processGpsLocationStep
  rw [hplan]
  dsimp only
  rw [if_neg hw, hpx]
  dsimp only
  rw [hsel, hnav]
  dsimp only
  constructor
  · intro hd
    rw [if_pos hd]
    exact ⟨rfl, rfl, rfl, rfl, rfl⟩
  · intro hd
    rw [if_neg (not_lt.mpr hd)]
    split
    · exact ⟨rfl, rfl, rfl⟩
    · split
      · unfold fetchStart
        split
        · exact ⟨rfl, rfl, rfl⟩
        · exact ⟨rfl, rfl, rfl⟩
      · split
        · exact ⟨rfl, rfl, rfl⟩
        · exact ⟨rfl, rfl, rfl⟩

/-- A live-navigation state: user at (100, 100), target `E1` at
(700, 500), watch active. -/
def navigatingState : NavState :=
  { baseState with
      userLocation := some { x := 100, y := 100 }
      selectedElevator := some sampleElevator
      isNavigatingWithGps := true
      gpsWatchId := some 7 }

/-- A fix that projects to pixel (695, 505): distance to `E1` is
√50 ≈ 7.07, below the threshold. -/
def gNear : GeoPoint := { latitude := 34.0521425, longitude := -118.2427625 }

/-- A fix that projects to pixel (600, 400): distance to `E1` is
√20000 ≈ 141, above the threshold. -/
def gFar : GeoPoint := { latitude := 34.0523, longitude := -118.2430 }

/-- Witness for C7 on the spec scenario: the near fix triggers arrival and
the far fix does not. -/
theorem c7_witness :
    (processGpsLocationStep true navigatingState gNear none).1.isNavigatingWithGps
        = false ∧
    (processGpsLocationStep true navigatingState gNear none).1.gpsWatchId
        = none ∧
    (processGpsLocationStep true navigatingState gNear none).1.path = none ∧
    (processGpsLocationStep true navigatingState gNear none).1.gpsStatus
        = .arrived sampleElevator.name ∧
    (processGpsLocationStep true navigatingState gFar none).1.isNavigatingWithGps
        = true ∧
    (processGpsLocationStep true navigatingState gFar none).1.gpsStatus
        = .navigating sampleElevator.name := by
  have hnear := (c7_arrival_threshold true navigatingState gNear none samplePlan
    sampleElevator { x := 695, y := 505 } rfl (by norm_num [samplePlan])
    rfl rfl
    (by norm_num [mapGeoToPixel, mapRange, FLOOR_PLAN_GEO_BOUNDS, samplePlan,
      gNear])).1
    (by norm_num [calculateDistanceSq, ARRIVAL_THRESHOLD_PIXELS, sampleElevator])
  have hfar := (c7_arrival_threshold true navigatingState gFar none samplePlan
    sampleElevator { x := 600, y := 400 } rfl (by norm_num [samplePlan])
    rfl rfl
    (by norm_num [mapGeoToPixel, mapRange, FLOOR_PLAN_GEO_BOUNDS, samplePlan,
      gFar])).2
    (by norm_num [calculateDistanceSq, ARRIVAL_THRESHOLD_PIXELS, sampleElevator])
  exact ⟨hnear.1, hnear.2.1, hnear.2.2.1, hnear.2.2.2.1, hfar.1, hfar.2.2⟩

/-!
### Helper lemmas for the nearest-elevator scan (C6)
-/

/-- Once the running minimum is at most every remaining distance, the scan
keeps its accumulator (strict `<` never fires). -/
lemma foldl_nearestStep_keep (u : Point) (l : List Elevator) (b : Elevator)
    (m : ℚ) (h : ∀ a ∈ l, m ≤ calculateDistanceSq u a.location) :
    l.foldl (nearestStep u) (some b, some m) = (some b, some m) := by
  induction l with
  | nil => rfl
  | cons a t ih =>
    have ha := h a (List.mem_cons_self a t)
    have hstep : nearestStep u (some b, some m) a = (some b, some m) := by
      unfold nearestStep
      simp [not_lt.mpr ha]
    rw [List.foldl_cons, hstep]
    exact ih (fun x hx => h x (List.mem_cons_of_mem a hx))

/-- Scanning a list whose every element is strictly farther than `e`
leaves either the empty accumulator or a running minimum strictly above
the distance of `e`. -/
lemma foldl_nearestStep_far (u : Point) (e : Elevator) (l : List Elevator)
    (acc : Option Elevator × Option ℚ)
    (hacc : acc = (none, none) ∨ ∃ b m, acc = (some b, some m) ∧
      calculateDistanceSq u e.location < m)
    (h : ∀ a ∈ l,
      calculateDistanceSq u e.location < calculateDistanceSq u a.location) :
    l.foldl (nearestStep u) acc = (none, none) ∨
    ∃ b m, l.foldl (nearestStep u) acc = (some b, some m) ∧
      calculateDistanceSq u e.location < m := by
  induction l generalizing acc with
  | nil => simpa using hacc
  | cons a t ih =>
    rw [List.foldl_cons]
    refine ih _ ?_ (fun x hx => h x (List.mem_cons_of_mem a hx))
    have ha := h a (List.mem_cons_self a t)
    rcases hacc with rfl | ⟨b, m, rfl, hm⟩
    · exact Or.inr ⟨a, _, rfl, ha⟩
    · unfold nearestStep
      dsimp only
      by_cases hlt : calculateDistanceSq u a.location < m
      · rw [if_pos hlt]
        exact Or.inr ⟨a, _, rfl, ha⟩
      · rw [if_neg hlt]
        exact Or.inr ⟨b, m, rfl, hm⟩

/-- The first element attaining the minimum wins: every earlier element is
strictly farther, every later one at least as far. -/
lemma findNearestElevator_first_min (u : Point) (e : Elevator)
    (l₁ l₂ : List Elevator)
    (h1 : ∀ a ∈ l₁,
      calculateDistanceSq u e.location < calculateDistanceSq u a.location)
    (h2 : ∀ a ∈ l₂,
      calculateDistanceSq u e.location ≤ calculateDistanceSq u a.location) :
    findNearestElevator u (l₁ ++ e :: l₂) = some e := by
  unfold findNearestElevator
  rw [if_neg (by simp)]
  rw [List.foldl_append]
  rcases foldl_nearestStep_far u e l₁ (none, none) (Or.inl rfl) h1 with
    hmid | ⟨b, m, hmid, hm⟩
  · rw [hmid, List.foldl_cons]
    rw [show nearestStep u (none, none) e =
      (some e, some (calculateDistanceSq u e.location)) from rfl]
    rw [foldl_nearestStep_keep u l₂ e _ h2]
  · rw [hmid, List.foldl_cons]
    have hstep : nearestStep u (some b, some m) e =
        (some e, some (calculateDistanceSq u e.location)) := by
      unfold nearestStep
      dsimp only
      rw [if_pos hm]
    rw [hstep]
    rw [foldl_nearestStep_keep u l₂ e _ h2]

/-- Any member of a list is the head of some suffix whose prefix avoids
it. -/
lemma exists_first_occurrence (e : Elevator) (l : List Elevator)
    (he : e ∈ l) : ∃ l₁ l₂, l = l₁ ++ e :: l₂ ∧ e ∉ l₁ := by
  induction l with
  | nil => cases he
  | cons a t ih =>
    by_cases hae : a = e
    · subst hae
      exact ⟨[], t, rfl, by simp⟩
    · have het : e ∈ t := by
        rcases List.mem_cons.mp he with h | h
        · exact absurd h.symm hae
        · exact h
      obtain ⟨l₁, l₂, rfl, hnot⟩ := ih het
      refine ⟨a :: l₁, l₂, rfl, ?_⟩
      simp only [List.mem_cons, not_or]
      exact ⟨fun h => hae h.symm, hnot⟩

/-- With a unique strict minimizer the scan returns it, whatever the input
order. -/
lemma findNearestElevator_unique_min (u : Point) (e : Elevator)
    (l : List Elevator) (he : e ∈ l)
    (hmin : ∀ a ∈ l, a ≠ e →
      calculateDistanceSq u e.location < calculateDistanceSq u a.location) :
    findNearestElevator u l = some e := by
  obtain ⟨l₁, l₂, rfl, hnot⟩ := exists_first_occurrence e l he
  apply findNearestElevator_first_min
  · intro a ha
    refine hmin a (by simp [ha]) ?_
    intro hae
    exact hnot (hae ▸ ha)
  · intro a ha
    by_cases hae : a = e
    · subst hae
      exact le_refl _
    · exact le_of_lt (hmin a (by simp [ha]) hae)

/-- **C6**: `findNearestElevator` returns `none` on an empty candidate
list; the strict `<` comparison makes the first occurrence of the minimum
win (every earlier candidate strictly farther, every later one at least as
far); and with a unique minimizer the result does not depend on the order
of the candidates. -/
theorem c6_nearest_empty_first_tie_and_order
    :
    (∀ u : Point, findNearestElevator u [] = none) ∧
    (∀ (u : Point) (e : Elevator) (l₁ l₂ : List Elevator),
      (∀ a ∈ l₁,
        calculateDistanceSq u e.location < calculateDistanceSq u a.location) →
      (∀ a ∈ l₂,
        calculateDistanceSq u e.location ≤ calculateDistanceSq u a.location) →
      findNearestElevator u (l₁ ++ e :: l₂) = some e) ∧
    (∀ (u : Point) (l l' : List Elevator) (e : Elevator),
      l.Perm l' → e ∈ l →
      (∀ a ∈ l, a ≠ e →
        calculateDistanceSq u e.location < calculateDistanceSq u a.location) →
      findNearestElevator u l = some e ∧
        findNearestElevator u l' = some e) := by
  refine ⟨fun u => rfl,
    fun u e l₁ l₂ h1 h2 => findNearestElevator_first_min u e l₁ l₂ h1 h2, ?_⟩
  intro u l l' e hperm he hmin
  refine ⟨findNearestElevator_unique_min u e l he hmin,
    findNearestElevator_unique_min u e l' (hperm.mem_iff.mp he) ?_⟩
  intro a ha hae
  exact hmin a (hperm.mem_iff.mpr ha) hae

/-- An elevator at distance 5 from the origin. -/
def elevFar : Elevator :=
  { id := "far", name := "Far", location := { x := 3, y := 4 }, floor := "1" }

/-- An elevator at distance 1 from the origin. -/
def elevNear : Elevator :=
  { id := "near", name := "Near", location := { x := 1, y := 0 }, floor := "1" }

/-- Another elevator at distance 1 from the origin (a tie with
`elevNear`). -/
def elevTie : Elevator :=
  { id := "tie", name := "Tie", location := { x := 0, y := 1 }, floor := "1" }

/-- Witness for C6: empty input, the first of two tied minima, and
order-independence for a unique minimum, at concrete elevators. -/
theorem c6_witness :
    findNearestElevator { x := 0, y := 0 } [] = none ∧
    findNearestElevator { x := 0, y := 0 } [elevFar, elevNear, elevTie] =
      some elevNear ∧
    findNearestElevator { x := 0, y := 0 } [elevNear, elevFar] =
      some elevNear ∧
    findNearestElevator { x := 0, y := 0 } [elevFar, elevNear] =
      some elevNear := by
  have hc := c6_nearest_empty_first_tie_and_order
  have h1 : ∀ a ∈ [elevFar],
      calculateDistanceSq { x := 0, y := 0 } elevNear.location <
        calculateDistanceSq { x := 0, y := 0 } a.location := by
    intro a ha
    rw [List.mem_singleton.mp ha]
    norm_num [calculateDistanceSq, elevNear, elevFar]
  have h2 : ∀ a ∈ [elevTie],
      calculateDistanceSq { x := 0, y := 0 } elevNear.location ≤
        calculateDistanceSq { x := 0, y := 0 } a.location := by
    intro a ha
    rw [List.mem_singleton.mp ha]
    norm_num [calculateDistanceSq, elevNear, elevTie]
  have hmin : ∀ a ∈ [elevNear, elevFar], a ≠ elevNear →
      calculateDistanceSq { x := 0, y := 0 } elevNear.location <
        calculateDistanceSq { x := 0, y := 0 } a.location := by
    intro a ha hne
    rcases List.mem_cons.mp ha with h | h
    · exact absurd h hne
    · rw [List.mem_singleton.mp h]
      norm_num [calculateDistanceSq, elevNear, elevFar]
  have hperm : ([elevNear, elevFar] : List Elevator).Perm [elevFar, elevNear] :=
    List.Perm.swap elevFar elevNear []
  have horder := hc.2.2 { x := 0, y := 0 } [elevNear, elevFar]
    [elevFar, elevNear] elevNear hperm (List.mem_cons_self _ _) hmin
  exact ⟨hc.1 { x := 0, y := 0 },
    hc.2.1 { x := 0, y := 0 } elevNear [elevFar] [elevTie] h1 h2,
    horder.1, horder.2⟩

/-!
### Helper lemmas for the linear range mapping (C5)
-/

/-- `mapRange` undoes itself when both ranges are non-degenerate. -/
lemma mapRange_inv (v i1 i2 o1 o2 : ℚ) (hi : i1 ≠ i2) (ho : o1 ≠ o2) :
    mapRange (mapRange v i1 i2 o1 o2) o1 o2 i1 i2 = v := by
  unfold mapRange
  rw [if_neg hi, if_neg ho]
  have d1 : i2 - i1 ≠ 0 := sub_ne_zero.mpr (Ne.symm hi)
  have d2 : o2 - o1 ≠ 0 := sub_ne_zero.mpr (Ne.symm ho)
  field_simp
  ring

/-- Strictly interior input, increasing input range, increasing output
range: the image is strictly interior. -/
lemma mapRange_mem_incr (v i1 i2 o1 o2 : ℚ) (hin : i1 < i2)
    (h1 : i1 < v) (h2 : v < i2) (ho : o1 < o2) :
    o1 < mapRange v i1 i2 o1 o2 ∧ mapRange v i1 i2 o1 o2 < o2 := by
  unfold mapRange
  rw [if_neg (ne_of_lt hin)]
  constructor
  · have hq : 0 < (v - i1) * (o2 - o1) / (i2 - i1) :=
      div_pos (mul_pos (by linarith) (by linarith)) (by linarith)
    linarith
  · have hq : (v - i1) * (o2 - o1) / (i2 - i1) < o2 - o1 := by
      rw [div_lt_iff₀ (by linarith : (0:ℚ) < i2 - i1)]
      nlinarith
    linarith

/-- Strictly interior input, decreasing input range, increasing output
range: the image is strictly interior. -/
lemma mapRange_mem_decr_in (v i1 i2 o1 o2 : ℚ) (hin : i2 < i1)
    (h1 : i2 < v) (h2 : v < i1) (ho : o1 < o2) :
    o1 < mapRange v i1 i2 o1 o2 ∧ mapRange v i1 i2 o1 o2 < o2 := by
  unfold mapRange
  rw [if_neg (Ne.symm (ne_of_lt hin))]
  constructor
  · have hq : 0 < (v - i1) * (o2 - o1) / (i2 - i1) :=
      div_pos_iff.mpr (Or.inr
        ⟨mul_neg_of_neg_of_pos (by linarith) (by linarith), by linarith⟩)
    linarith
  · have hq : (v - i1) * (o2 - o1) / (i2 - i1) < o2 - o1 := by
      rw [div_lt_iff_of_neg (by linarith : i2 - i1 < 0)]
      nlinarith
    linarith

/-- Strictly interior input, increasing input range, decreasing output
range: the image is strictly interior. -/
lemma mapRange_mem_decr_out (v i1 i2 o1 o2 : ℚ) (hin : i1 < i2)
    (h1 : i1 < v) (h2 : v < i2) (ho : o2 < o1) :
    o2 < mapRange v i1 i2 o1 o2 ∧ mapRange v i1 i2 o1 o2 < o1 := by
  unfold mapRange
  rw [if_neg (ne_of_lt hin)]
  constructor
  · have hq : o2 - o1 < (v - i1) * (o2 - o1) / (i2 - i1) := by
      rw [lt_div_iff₀ (by linarith : (0:ℚ) < i2 - i1)]
      nlinarith
    linarith
  · have hq : (v - i1) * (o2 - o1) / (i2 - i1) < 0 :=
      div_neg_of_neg_of_pos
        (mul_neg_of_pos_of_neg (by linarith) (by linarith)) (by linarith)
    linarith

/-- **C5**: for every geographic point strictly inside a non-degenerate,
correctly oriented bounds rectangle, `mapGeoToPixel` followed by
`mapPixelToGeo` returns exactly the original point (over exact rationals
the round trip is exact, hence within any floating-point tolerance), and
for every pixel strictly inside the image rectangle, `mapPixelToGeo`
followed by `mapGeoToPixel` returns exactly the original pixel. -/
theorem c5_round_trip
    (b : GeoBounds) (d : Dimensions) (g : GeoPoint) (p : Point)
    (hlat : b.southEast.latitude < b.northWest.latitude)
    (hlon : b.northWest.longitude < b.southEast.longitude)
    (hw : 0 < d.width) (hh : 0 < d.height)
    (hg1 : b.southEast.latitude < g.latitude)
    (hg2 : g.latitude < b.northWest.latitude)
    (hg3 : b.northWest.longitude < g.longitude)
    (hg4 : g.longitude < b.southEast.longitude)
    (hp1 : 0 < p.x) (hp2 : p.x < d.width)
    (hp3 : 0 < p.y) (hp4 : p.y < d.height) :
    (mapGeoToPixel g b d).bind (fun px => mapPixelToGeo px b d) = some g ∧
    (mapPixelToGeo p b d).bind (fun gp => mapGeoToPixel gp b d) = some p := by
  constructor
  · have hxmem := mapRange_mem_incr g.longitude b.northWest.longitude
      b.southEast.longitude 0 d.width hlon hg3 hg4 hw
    have hymem := mapRange_mem_decr_in g.latitude b.northWest.latitude
      b.southEast.latitude 0 d.height hlat hg1 hg2 hh
    unfold mapGeoToPixel
    rw [if_neg (by
      push_neg
      exact ⟨⟨le_of_lt hg2, le_of_lt hg1⟩, le_of_lt hg3, le_of_lt hg4⟩)]
    dsimp only [Option.bind]
    rw [min_eq_left (le_of_lt hxmem.2), max_eq_right (le_of_lt hxmem.1),
      min_eq_left (le_of_lt hymem.2), max_eq_right (le_of_lt hymem.1)]
    unfold mapPixelToGeo
    rw [mapRange_inv g.latitude b.northWest.latitude b.southEast.latitude
        0 d.height (ne_of_gt hlat) (ne_of_lt hh),
      mapRange_inv g.longitude b.northWest.longitude b.southEast.longitude
        0 d.width (ne_of_lt hlon) (ne_of_lt hw)]
  · have hglmem := mapRange_mem_incr p.x 0 d.width b.northWest.longitude
      b.southEast.longitude hw hp1 hp2 hlon
    have hgtmem := mapRange_mem_decr_out p.y 0 d.height
      b.northWest.latitude b.southEast.latitude hh hp3 hp4 hlat
    unfold mapPixelToGeo
    dsimp only [Option.bind]
    unfold mapGeoToPixel
    rw [if_neg (by
      push_neg
      exact ⟨⟨le_of_lt hgtmem.2, le_of_lt hgtmem.1⟩,
        le_of_lt hglmem.1, le_of_lt hglmem.2⟩)]
    rw [mapRange_inv p.x 0 d.width b.northWest.longitude
        b.southEast.longitude (ne_of_lt hw) (ne_of_lt hlon),
      mapRange_inv p.y 0 d.height b.northWest.latitude
        b.southEast.latitude (ne_of_lt hh) (ne_of_gt hlat)]
    dsimp only
    rw [min_eq_left (le_of_lt hp2), max_eq_right (le_of_lt hp1),
      min_eq_left (le_of_lt hp4), max_eq_right (le_of_lt hp3)]

/-- Witness for C5 at the calibrated bounds, an 800×600 image, the
interior fix (34.0524, -118.2435) and the interior pixel (400, 300). -/
theorem c5_witness :
    (mapGeoToPixel { latitude := 34.0524, longitude := -118.2435 }
        FLOOR_PLAN_GEO_BOUNDS { width := 800, height := 600 }).bind
      (fun px => mapPixelToGeo px FLOOR_PLAN_GEO_BOUNDS
        { width := 800, height := 600 }) =
      some { latitude := 34.0524, longitude := -118.2435 } ∧
    (mapPixelToGeo { x := 400, y := 300 } FLOOR_PLAN_GEO_BOUNDS
        { width := 800, height := 600 }).bind
      (fun gp => mapGeoToPixel gp FLOOR_PLAN_GEO_BOUNDS
        { width := 800, height := 600 }) =
      some { x := 400, y := 300 } :=
  c5_round_trip FLOOR_PLAN_GEO_BOUNDS { width := 800, height := 600 }
    { latitude := 34.0524, longitude := -118.2435 } { x := 400, y := 300 }
    (by norm_num [FLOOR_PLAN_GEO_BOUNDS]) (by norm_num [FLOOR_PLAN_GEO_BOUNDS])
    (by norm_num) (by norm_num)
    (by norm_num [FLOOR_PLAN_GEO_BOUNDS]) (by norm_num [FLOOR_PLAN_GEO_BOUNDS])
    (by norm_num [FLOOR_PLAN_GEO_BOUNDS]) (by norm_num [FLOOR_PLAN_GEO_BOUNDS])
    (by norm_num) (by norm_num) (by norm_num) (by norm_num)
